import Mathlib

/-!
Verification development for the Freewriting Prompts plugin core:
the timed-delivery scheduler (`TimedPromptsCommand`), the prompt
generation service with its TTL cache (`PromptGeneratorService`),
the Anthropic response parser (`AnthropicClient`), and the model
catalog service (`ModelService`).

Each definition is a shallow embedding of the corresponding
TypeScript method; timers and promises are modelled as explicit
state transitions (an interval tick can only fire while the interval
is armed, matching `window.setInterval`/`clearInterval` semantics),
and async methods are modelled as atomic steps parameterized by the
outcome of their single awaited operation.
-/

namespace Freewriting

/-- JavaScript whitespace (the set matched by `\s` and trimmed by
`String.prototype.trim`): ASCII whitespace, NBSP, BOM, and the
Unicode space separators and line separators. -/
def isJsWs (c : Char) : Bool :=
  c = ' ' || c = '\t' || c = '\n' || c = '\x0b' || c = '\x0c' || c = '\r' ||
  c = '\u00a0' || c = '\ufeff' || c = '\u1680' ||
  (0x2000 ≤ c.toNat && c.toNat ≤ 0x200a) ||
  c = '\u2028' || c = '\u2029' || c = '\u202f' || c = '\u205f' || c = '\u3000'

/-- Embeds `String.prototype.trim` on a character list: drop whitespace
from both ends. -/
def jsTrim (l : List Char) : List Char :=
  ((l.dropWhile isJsWs).reverse.dropWhile isJsWs).reverse

/-- The `trim` lifted to `String`. -/
def jsTrimS (s : String) : String := String.mk (jsTrim s.data)

/-! ## TimedPromptsCommand (src/commands/timedPrompts.ts)

State of one `TimedPromptsCommand` instance.  `activeInterval` holds
the delay (seconds) of the armed repeating timer — `window.setInterval`
returns an id, but the only observable facts are whether a timer is
armed and with which period; `none` models the cleared (`null`) id. -/

structure TimedState where
  activeInterval : Option Nat
  promptQueue : List String
  currentIndex : Nat
  inProgress : Bool
  deriving Repr, DecidableEq

/-- The initial state of a freshly constructed command. -/
def TimedState.init : TimedState :=
  { activeInterval := none, promptQueue := [], currentIndex := 0, inProgress := false }

/-- Observable user-facing notices emitted by the command layer. -/
inductive PNotice where
  /-- The notice `Writing Prompt i/n:\n\n<text>` with its display duration (ms). -/
  | prompt (index total : Nat) (text : String) (durationMs : Nat)
  /-- The notice `All prompts have been shown` -/
  | completed
  /-- The notice `Timed prompts are already being generated. Please wait.` -/
  | alreadyGenerating
  /-- The notice `Timed prompts are already running. Use "Stop Timed Prompts" ...` -/
  | alreadyRunning
  /-- The notice `No prompts were generated` -/
  | noPrompts
  /-- The notice `Settings validation failed: ...` -/
  | validationFailed (errors : List String)
  deriving Repr, DecidableEq

/-- Is this notice a prompt emission (as opposed to a status message)? -/
def PNotice.isEmission : PNotice → Bool
  | .prompt _ _ _ _ => true
  | _ => false

/-- Embeds `TimedPromptsCommand.stop` (timedPrompts.ts:116-124): clears the
interval (if armed), empties the queue, resets the cursor; does NOT
touch `inProgress`. -/
def TimedState.stop (st : TimedState) : TimedState :=
  { activeInterval := none, promptQueue := [], currentIndex := 0,
    inProgress := st.inProgress }

/-- Embeds `TimedPromptsCommand.isRunning` (timedPrompts.ts:131-133). -/
def TimedState.isRunning (st : TimedState) : Bool :=
  st.activeInterval.isSome

/-- Embeds `TimedPromptsCommand.showCurrentPrompt` (timedPrompts.ts:173-195):
emits the prompt at the cursor when in bounds, with duration
`delayMs > 1000 ? delayMs - 500 : 500`. -/
def TimedState.showCurrentPrompt (st : TimedState) (delaySeconds : Nat) : List PNotice :=
  if h : st.currentIndex < st.promptQueue.length then
    let delayMs := delaySeconds * 1000
    let dur := if delayMs > 1000 then delayMs - 500 else 500
    [.prompt (st.currentIndex + 1) st.promptQueue.length
      (st.promptQueue.get ⟨st.currentIndex, h⟩) dur]
  else []

/-- One firing of the interval callback installed by
`TimedPromptsCommand.startInterval` (timedPrompts.ts:146-158).  A tick
can only fire while the interval is armed (`clearInterval` cancels the
timer synchronously, so no callback runs after `stop`); with no armed
interval the state is unchanged and nothing is emitted. -/
def TimedState.tick (st : TimedState) : TimedState × List PNotice :=
  match st.activeInterval with
  | none => (st, [])
  | some delaySeconds =>
    let st1 := { st with currentIndex := st.currentIndex + 1 }
    if st1.currentIndex < st1.promptQueue.length then
      (st1, st1.showCurrentPrompt delaySeconds)
    else
      (st1.stop, [.completed])

/-- Runs `n` consecutive interval firings, accumulating emissions. -/
def TimedState.runTicks (st : TimedState) : Nat → TimedState × List PNotice
  | 0 => (st, [])
  | n + 1 =>
    let (st1, out1) := st.tick
    let (st2, out2) := st1.runTicks n
    (st2, out1 ++ out2)

/-- Embeds `TimedPromptsCommand.execute` (timedPrompts.ts:61-104), with the
awaited generation call's outcome passed in (`.ok prompts` for a
successful `generateTimedPrompts`, `.error` for a thrown error).
The method: rejects when `inProgress`; otherwise sets `inProgress`,
calls `stop()`, then on success installs the queue, shows the first
prompt and (for more than one prompt) arms the interval; the
`finally` block resets `inProgress`. -/
def TimedState.execute (st : TimedState) (delaySeconds : Nat)
    (genResult : Except String (List String)) : TimedState × List PNotice :=
  if st.inProgress then (st, [.alreadyGenerating])
  else
    let st1 := TimedState.stop { st with inProgress := true }
    match genResult with
    | .error _ => ({ st1 with inProgress := false }, [])
    | .ok prompts =>
      if prompts.length = 0 then
        ({ st1 with inProgress := false }, [.noPrompts])
      else
        let st2 := { st1 with promptQueue := prompts, currentIndex := 0 }
        let shown := st2.showCurrentPrompt delaySeconds
        let st3 :=
          if prompts.length > 1
          then { st2 with activeInterval := some delaySeconds }
          else st2
        ({ st3 with inProgress := false }, shown)

/-- Embeds `TimedPromptsCommand.getStatus` (timedPrompts.ts:207-216). -/
structure TimedStatus where
  isRunning : Bool
  currentPrompt : Nat
  totalPrompts : Nat
  deriving Repr, DecidableEq

/-- Embeds `getStatus`: `currentPrompt` is 0 when the queue is empty, else
`min (currentIndex + 1) totalPrompts`. -/
def TimedState.getStatus (st : TimedState) : TimedStatus :=
  let totalPrompts := st.promptQueue.length
  let currentPrompt := if totalPrompts = 0 then 0 else min (st.currentIndex + 1) totalPrompts
  { isRunning := st.isRunning, currentPrompt := currentPrompt, totalPrompts := totalPrompts }

/-- Embeds `TimedPromptsCommand.getRemainingPrompts` (timedPrompts.ts:225-230):
empty when the cursor is at or past the end, else
`promptQueue.slice(currentIndex + 1)`. -/
def TimedState.getRemainingPrompts (st : TimedState) : List String :=
  if st.currentIndex ≥ st.promptQueue.length then []
  else st.promptQueue.drop (st.currentIndex + 1)

/-! ## Settings (src/types.ts) and validation (promptGenerator service) -/

/-- Embeds `FreewritingPromptsSettings` (types.ts:4-13). -/
structure Settings where
  apiKey : String
  model : String
  timedCount : Nat
  delaySeconds : Nat
  noteCount : Nat
  systemPrompt : String
  timedExamplePrompt : String
  freewritingExamplePrompt : String
  deriving Repr, DecidableEq

/-- Embeds `PromptGeneratorService.validateSettings`: collects all violated
constraints (API key present, model present, timed count ∈ [1,50],
delay ∈ [1,300], note count ∈ [1,20]). -/
def validateSettings (s : Settings) : List String :=
  (if jsTrim s.apiKey.data = [] then ["API key is required"] else []) ++
  (if jsTrim s.model.data = [] then ["Claude model is required"] else []) ++
  (if s.timedCount < 1 || s.timedCount > 50 then ["Timed count must be between 1 and 50"] else []) ++
  (if s.delaySeconds < 1 || s.delaySeconds > 300 then ["Delay seconds must be between 1 and 300"] else []) ++
  (if s.noteCount < 1 || s.noteCount > 20 then ["Note count must be between 1 and 20"] else [])

/-- Embeds `FreewritingPromptsPlugin.executeTimedPrompts` (main.ts:198-218):
rejects with the "already running" notice when the scheduler has an
armed interval; then validates settings; then delegates to
`TimedPromptsCommand.execute`. -/
def executeTimedPrompts (st : TimedState) (settings : Settings)
    (genResult : Except String (List String)) : TimedState × List PNotice :=
  if st.isRunning then (st, [.alreadyRunning])
  else
    let errors := validateSettings settings
    if errors ≠ [] then (st, [.validationFailed errors])
    else st.execute settings.delaySeconds genResult

/-! ## Response parsing (src/api, `AnthropicClient.parsePromptsFromResponse`) -/

/-- Embeds `text.split('\n')` on a character list: split at every newline,
keeping empty segments. -/
def splitOnNewline : List Char → List (List Char)
  | [] => [[]]
  | '\n' :: rest => [] :: splitOnNewline rest
  | c :: rest =>
    match splitOnNewline rest with
    | [] => [[c]]
    | l :: ls => (c :: l) :: ls

/-- Embeds `line.replace(/^\d+\.\s*/, '')`: strip a leading ordinal marker —
one or more ASCII digits followed by a literal dot and any whitespace.
If the line does not start with `digits.`, it is returned unchanged. -/
def stripOrdinal (l : List Char) : List Char :=
  let digits := l.takeWhile Char.isDigit
  if digits.isEmpty then l
  else
    match l.drop digits.length with
    | '.' :: rest => rest.dropWhile isJsWs
    | _ => l

/-- Embeds `AnthropicClient.parsePromptsFromResponse` (anthropicClient.ts:126-151)
applied to the response text: split into lines, trim each, discard blank
lines, strip the leading ordinal marker and trim again, discard lines that
became blank; error when no usable prompt remains. -/
def parsePromptsFromResponse (text : String) : Except String (List String) :=
  let lines := ((splitOnNewline text.data).map jsTrim).filter (fun l => l.length > 0)
  let prompts := (lines.map (fun line => jsTrim (stripOrdinal line))).filter
    (fun cleaned => cleaned.length > 0)
  if prompts.length = 0 then .error "No valid prompts found in API response"
  else .ok (prompts.map String.mk)

/-! ## JSON cache-key fingerprint (`PromptGeneratorService.createCacheKey`)

`createCacheKey` returns `JSON.stringify({count, model, systemPrompt:
systemPrompt.trim(), examplePrompt: examplePrompt.trim(), type})`.  We
embed `JSON.stringify`'s string escaping and number printing exactly:
`"` and `\` get a backslash escape, the control characters BS, TAB, LF,
FF, CR get their short escapes, all other control characters below
U+0020 get `\u00XX` (lowercase hex), and everything else is emitted
verbatim; numbers print in decimal. -/

/-- Lowercase hexadecimal digit for a value below 16. -/
def hexDigitChar : Nat → Char
  | 0 => '0'
  | 1 => '1'
  | 2 => '2'
  | 3 => '3'
  | 4 => '4'
  | 5 => '5'
  | 6 => '6'
  | 7 => '7'
  | 8 => '8'
  | 9 => '9'
  | 10 => 'a'
  | 11 => 'b'
  | 12 => 'c'
  | 13 => 'd'
  | 14 => 'e'
  | _ => 'f'

/-- Value of a lowercase hexadecimal digit. -/
def hexVal : Char → Nat
  | '0' => 0
  | '1' => 1
  | '2' => 2
  | '3' => 3
  | '4' => 4
  | '5' => 5
  | '6' => 6
  | '7' => 7
  | '8' => 8
  | '9' => 9
  | 'a' => 10
  | 'b' => 11
  | 'c' => 12
  | 'd' => 13
  | 'e' => 14
  | _ => 15

/-- The `JSON.stringify` escaping of a single character inside a string
literal. -/
def escapeChar (c : Char) : List Char :=
  if c = '"' then ['\\', '"']
  else if c = '\\' then ['\\', '\\']
  else if c = '\x08' then ['\\', 'b']
  else if c = '\t' then ['\\', 't']
  else if c = '\n' then ['\\', 'n']
  else if c = '\x0c' then ['\\', 'f']
  else if c = '\r' then ['\\', 'r']
  else if c.toNat < 32 then
    ['\\', 'u', '0', '0', hexDigitChar (c.toNat / 16), hexDigitChar (c.toNat % 16)]
  else [c]

/-- The `JSON.stringify` escaping of the body of a string literal. -/
def jsonEscape : List Char → List Char
  | [] => []
  | c :: r => escapeChar c ++ jsonEscape r

/-- Left inverse of `jsonEscape`, used to prove it injective. -/
def unescape1 : List Char → List Char
  | [] => []
  | c :: r =>
    if c = '\\' then
      match r with
      | 'b' :: r1 => '\x08' :: unescape1 r1
      | 't' :: r1 => '\t' :: unescape1 r1
      | 'n' :: r1 => '\n' :: unescape1 r1
      | 'f' :: r1 => '\x0c' :: unescape1 r1
      | 'r' :: r1 => '\r' :: unescape1 r1
      | 'u' :: _ :: _ :: h1 :: h0 :: r1 => Char.ofNat (16 * hexVal h1 + hexVal h0) :: unescape1 r1
      | e :: r1 => e :: unescape1 r1
      | [] => []
    else c :: unescape1 r

/-- A complete JSON string literal: quote, escaped body, quote. -/
def jsonStringLit (s : List Char) : List Char := '"' :: (jsonEscape s ++ ['"'])

/-- Decimal printing worker, structurally recursive on a fuel bound
(any fuel above the value itself is enough). -/
def natSerialGo : Nat → Nat → List Char
  | 0, _ => []
  | fuel + 1, n =>
    if n < 10 then [hexDigitChar n]
    else natSerialGo fuel (n / 10) ++ [hexDigitChar (n % 10)]

/-- Decimal printing of a natural number, as `JSON.stringify` prints a
non-negative integer. -/
def natSerial (n : Nat) : List Char := natSerialGo (n + 1) n

/-- Decimal value of a digit list, left inverse of `natSerial`. -/
def digitsVal (l : List Char) : Nat := l.foldl (fun acc c => 10 * acc + hexVal c) 0

/-- The `type` parameter of a generation request. -/
inductive PromptType where
  | timed
  | note
  deriving Repr, DecidableEq

/-- The JSON value of the `type` field. -/
def PromptType.str : PromptType → List Char
  | .timed => "timed".data
  | .note => "note".data

/-- Embeds `PromptGeneratorService.createCacheKey` on character lists:
`JSON.stringify({count, model, systemPrompt: systemPrompt.trim(),
examplePrompt: examplePrompt.trim(), type})` with JS object-literal
key order. -/
def createCacheKeyL (count : Nat) (model systemPrompt examplePrompt : List Char)
    (t : PromptType) : List Char :=
  "\x7b\"count\":".data ++ (natSerial count ++
  (",\"model\":".data ++ (jsonStringLit model ++
  (",\"systemPrompt\":".data ++ (jsonStringLit (jsTrim systemPrompt) ++
  (",\"examplePrompt\":".data ++ (jsonStringLit (jsTrim examplePrompt) ++
  (",\"type\":".data ++ (jsonStringLit t.str ++ ['\x7d'])))))))))

/-- Embeds `PromptGeneratorService.createCacheKey` (promptGenerator.ts:194-209). -/
def createCacheKey (count : Nat) (model systemPrompt examplePrompt : String)
    (t : PromptType) : String :=
  String.mk (createCacheKeyL count model.data systemPrompt.data examplePrompt.data t)

/-! ## Prompt cache and generation service (`PromptGeneratorService`) -/

/-- Embeds `GeneratedPrompt` (types.ts:48-51); the `Date` timestamp is its
millisecond value. -/
structure GeneratedPrompt where
  text : String
  timestamp : Nat
  deriving Repr, DecidableEq

/-- The in-memory prompt cache: a JS `Map` from cache key to prompt
list, as an insertion-ordered association list. -/
abbrev PCache := List (String × List GeneratedPrompt)

/-- Embeds `Map.get`. -/
def pcLookup (c : PCache) (k : String) : Option (List GeneratedPrompt) :=
  (List.find? (fun p => p.1 = k) c).map (fun p => p.2)

/-- Embeds `Map.delete`. -/
def pcErase (c : PCache) (k : String) : PCache :=
  List.filter (fun p => p.1 ≠ k) c

/-- Embeds `Map.set`: overwrite in place when the key exists, else append. -/
def pcInsert (c : PCache) (k : String) (v : List GeneratedPrompt) : PCache :=
  if c.any (fun p => p.1 = k) then
    c.map (fun p => if p.1 = k then (k, v) else p)
  else c ++ [(k, v)]

/-- Cache expiry (promptGenerator.ts:28): 10 minutes in milliseconds. -/
def cacheExpiryMs : Nat := 10 * 60 * 1000

/-- Embeds `PromptGeneratorService.getCachedPrompts` (promptGenerator.ts:224-245):
miss when absent; evict and miss when present-but-empty; evict and miss
when `now - cached[0].timestamp > cacheExpiryMs`; otherwise hit.
Returns the lookup outcome together with the possibly-updated cache. -/
def getCachedPrompts (cache : PCache) (key : String) (now : Nat) :
    Option (List GeneratedPrompt) × PCache :=
  match pcLookup cache key with
  | none => (none, cache)
  | some [] => (none, pcErase cache key)
  | some (first :: rest) =>
    if now - first.timestamp > cacheExpiryMs then (none, pcErase cache key)
    else (some (first :: rest), cache)

/-- Embeds `AnthropicClient.validateApiKey` (anthropicClient.ts:159-161):
key truthy and nonempty after trimming. -/
def validateApiKey (apiKey : String) : Bool :=
  apiKey ≠ "" && jsTrim apiKey.data ≠ []

/-- State of one `PromptGeneratorService` (with its embedded
`AnthropicClient`): the transport credential and the prompt cache. -/
structure GenState where
  apiKey : String
  cache : PCache
  deriving DecidableEq

/-- Embeds `PromptGeneratorService.generatePrompts` (promptGenerator.ts:137-178)
with the awaited remote call's response text passed in: validate the
API key, consult the cache (which may evict a stale or empty entry),
and on a miss parse the response; only a successfully parsed, non-empty
prompt list is written to the cache. -/
def generatePromptsService (st : GenState) (now : Nat) (count : Nat)
    (model systemPrompt examplePrompt : String) (t : PromptType)
    (responseText : String) : Except String (List String) × GenState :=
  if ¬ validateApiKey st.apiKey then (.error "API key not configured", st)
  else
    let key := createCacheKey count model systemPrompt examplePrompt t
    let looked := getCachedPrompts st.cache key now
    match looked.1 with
    | some cached => (.ok (cached.map (fun p => p.text)), { st with cache := looked.2 })
    | none =>
      match parsePromptsFromResponse responseText with
      | .error e => (.error e, { st with cache := looked.2 })
      | .ok prompts =>
        let generated := prompts.map (fun text => GeneratedPrompt.mk text now)
        (.ok prompts, { st with cache := pcInsert looked.2 key generated })

/-- Embeds `PromptGeneratorService.generateTimedPrompts` (promptGenerator.ts:60-68). -/
def generateTimedPrompts (st : GenState) (now : Nat) (settings : Settings)
    (responseText : String) : Except String (List String) × GenState :=
  generatePromptsService st now settings.timedCount settings.model
    settings.systemPrompt settings.timedExamplePrompt .timed responseText

/-- Embeds `PromptGeneratorService.updateApiKey` (promptGenerator.ts:99-102):
update the client credential and clear the prompt cache. -/
def GenState.updateApiKey (_st : GenState) (newKey : String) : GenState :=
  { apiKey := newKey, cache := [] }

/-- The invariant that no prompt-cache entry is an empty list. -/
def pcacheNonEmptyEntries (c : PCache) : Prop := ∀ p ∈ c, p.2 ≠ []

instance (c : PCache) : Decidable (pcacheNonEmptyEntries c) :=
  inferInstanceAs (Decidable (∀ p ∈ c, p.2 ≠ []))

instance {ε α : Type} [DecidableEq ε] [DecidableEq α] : DecidableEq (Except ε α)
  | .error e1, .error e2 =>
    if h : e1 = e2 then isTrue (by rw [h]) else isFalse (by simp [h])
  | .ok a1, .ok a2 =>
    if h : a1 = a2 then isTrue (by rw [h]) else isFalse (by simp [h])
  | .error _, .ok _ => isFalse (by simp)
  | .ok _, .error _ => isFalse (by simp)

/-! ## Model catalog service (src/services/modelService.ts) -/

/-- Embeds `ModelInfo` (types.ts:53-58); `display_name` is optional. -/
structure ModelInfo where
  id : String
  display_name : Option String
  type : String
  deriving Repr, DecidableEq

/-- Embeds `ModelCache` (types.ts:67-70). -/
structure ModelCacheData where
  models : List ModelInfo
  fetchedAt : Nat
  deriving Repr, DecidableEq

/-- Embeds `ModelOption` (modelService.ts:141-147). -/
structure ModelOption where
  id : String
  displayName : String
  deriving Repr, DecidableEq

/-- State of one `ModelService` instance (the in-flight promise is
modelled separately, see `SFState`). -/
structure MState where
  modelCache : Option ModelCacheData
  hasShownFallbackNotice : Bool
  deriving Repr, DecidableEq

/-- Model-catalog TTL (modelService.ts:165): 24 hours in milliseconds. -/
def CACHE_TTL_MS : Nat := 24 * 60 * 60 * 1000

/-- Embeds `ANTHROPIC_MODELS` (types.ts:72-79), the hardcoded fallback list. -/
def ANTHROPIC_MODELS : List String :=
  ["claude-opus-4-1-20250805", "claude-opus-4-20250514", "claude-sonnet-4-20250514",
   "claude-3-7-sonnet-latest", "claude-3-5-haiku-latest", "claude-3-haiku-20240307"]

/-- Embeds `ModelService.isCacheValid` (modelService.ts:319-327):
cache present and `now - fetchedAt < CACHE_TTL_MS`. -/
def MState.isCacheValid (st : MState) (now : Nat) : Bool :=
  match st.modelCache with
  | none => false
  | some c => now - c.fetchedAt < CACHE_TTL_MS

/-- Embeds `model.display_name || model.id`. -/
def displayOf (m : ModelInfo) : String :=
  match m.display_name with
  | some s => if s = "" then m.id else s
  | none => m.id

/-- Lexicographic strict order on character lists by code point
(the embedding of the `localeCompare` ordering). -/
def charListLt : List Char → List Char → Bool
  | [], [] => false
  | [], _ :: _ => true
  | _ :: _, [] => false
  | a :: as, b :: bs =>
    if a.toNat < b.toNat then true
    else if b.toNat < a.toNat then false
    else charListLt as bs

/-- Tests `a.displayName.localeCompare(b.displayName) ≤ 0` in the embedding. -/
def displayNameLe (a b : ModelOption) : Bool :=
  !charListLt b.displayName.data a.displayName.data

/-- Insert into a list sorted by display name (models the stable
`sort` by `displayName.localeCompare`, embedded as string order). -/
def insertByDisplayName (x : ModelOption) : List ModelOption → List ModelOption
  | [] => [x]
  | y :: r =>
    if displayNameLe x y then x :: y :: r else y :: insertByDisplayName x r

/-- Sort model options by display name. -/
def sortByDisplayName (l : List ModelOption) : List ModelOption :=
  l.foldr insertByDisplayName []

/-- Embeds `ModelService.formatModels` (modelService.ts:384-389): project to
`ModelOption` and sort alphabetically by display name. -/
def formatModels (models : List ModelInfo) : List ModelOption :=
  sortByDisplayName (models.map (fun m => ModelOption.mk m.id (displayOf m)))

/-- Embeds `ModelService.getFallbackModels` (modelService.ts:400-405). -/
def getFallbackModels : List ModelOption :=
  sortByDisplayName (ANTHROPIC_MODELS.map (fun id => ModelOption.mk id id))

/-- Embeds `ModelService.getStaleCacheModels` (modelService.ts:338-343):
the cached models regardless of TTL, or `none` when no cache exists. -/
def MState.getStaleCacheModels (st : MState) : Option (List ModelOption) :=
  match st.modelCache with
  | none => none
  | some c => some (formatModels c.models)

/-- Does the needle occur as a contiguous subsequence of the haystack? -/
def containsSeq (needle : List Char) : List Char → Bool
  | [] => needle.isEmpty
  | c :: r => needle.isPrefixOf (c :: r) || containsSeq needle r

/-- Embeds `/model/i.test(type)`: case-insensitive substring test. -/
def typeMentionsModel (s : String) : Bool :=
  containsSeq "model".data (s.data.map Char.toLower)

/-- The filter in `ModelService.updateCache` (modelService.ts:362):
skip an entry whose `type` is truthy and does not mention "model". -/
def keepModelEntry (m : ModelInfo) : Bool :=
  !(m.type ≠ "" && !typeMentionsModel m.type)

/-- The `Map.set`-based dedup by id (last write wins, first position kept). -/
def byIdInsert (acc : List ModelInfo) (m : ModelInfo) : List ModelInfo :=
  if acc.any (fun x => x.id = m.id) then
    acc.map (fun x => if x.id = m.id then m else x)
  else acc ++ [m]

/-- Embeds `ModelService.updateCache` (modelService.ts:356-372): filter to
model-like entries, dedup by id, stamp with the current time. -/
def MState.updateCache (st : MState) (models : List ModelInfo) (now : Nat) : MState :=
  { st with modelCache := some ⟨(models.filter keepModelEntry).foldl byIdInsert [], now⟩ }

/-- Embeds `ModelService.fetchWithDeduplication` (modelService.ts:282-308) as
one settled flight, parameterized by the awaited fetch outcome: on
success cache the (filtered, deduped) data, reset the notice flag and
return the formatted raw data; on failure mark the notice shown and
return the stale cache if present, else the hardcoded fallback. -/
def fetchWithDeduplication (st : MState) (now : Nat)
    (fetchResult : Except String (List ModelInfo)) : List ModelOption × MState :=
  match fetchResult with
  | .ok models =>
    ((formatModels models), { st.updateCache models now with hasShownFallbackNotice := false })
  | .error _ =>
    (st.getStaleCacheModels.getD getFallbackModels,
     { st with hasShownFallbackNotice := true })

/-- Embeds `ModelService.getAvailableModels` (modelService.ts:195-208): valid
cache hit → formatted cache; no credential → fallback; otherwise the
deduplicated fetch path. -/
def getAvailableModels (st : MState) (now : Nat) (apiKeyValid : Bool)
    (fetchResult : Except String (List ModelInfo)) : List ModelOption × MState :=
  match st.modelCache, st.isCacheValid now with
  | some c, true => (formatModels c.models, st)
  | _, _ =>
    if ¬ apiKeyValid then (getFallbackModels, st)
    else fetchWithDeduplication st now fetchResult

/-! ## Single-flight deduplication (the `inFlight` promise field)

The in-flight registration of `fetchWithDeduplication` as a state
machine over caller arrivals: a caller entering while no flight is
registered invokes the producer and registers a fresh flight; a caller
entering while a flight is registered awaits that same flight without
invoking the producer; settling (the promise's `finally`) removes the
registration regardless of outcome. -/

structure SFState where
  inFlight : Option Nat
  nextId : Nat
  producerCalls : Nat
  deriving Repr, DecidableEq

/-- One caller reaching the `if (!this.inFlight)` block: returns the
id of the flight the caller awaits. -/
def SFState.enterCall (s : SFState) : SFState × Nat :=
  match s.inFlight with
  | some fid => (s, fid)
  | none =>
    ({ inFlight := some s.nextId, nextId := s.nextId + 1,
       producerCalls := s.producerCalls + 1 }, s.nextId)

/-- Models `n` callers entering back-to-back (one burst), collecting the
flight ids they await. -/
def SFState.enterAll (s : SFState) : Nat → SFState × List Nat
  | 0 => (s, [])
  | n + 1 =>
    let p := s.enterCall
    let q := p.1.enterAll n
    (q.1, p.2 :: q.2)

/-- The flight's `finally`: the registration is removed when the
underlying promise settles, regardless of its outcome. -/
def SFState.settle (s : SFState) : SFState := { s with inFlight := none }

/-! ## Combined plugin services (src/main.ts) -/

/-- The two service instances owned by `FreewritingPromptsPlugin`
that the credential-change claims relate. -/
structure PluginServices where
  gen : GenState
  modelSvc : MState
  deriving DecidableEq

/-- The call `this.promptGenerator.updateApiKey(...)` as it acts on the
combined service state: only the generator service is touched. -/
def PluginServices.updateApiKey (ps : PluginServices) (newKey : String) : PluginServices :=
  { ps with gen := ps.gen.updateApiKey newKey }

/-! ## Basic scheduler lemmas -/

/-- A tick fired while no interval is armed changes nothing and
emits nothing. -/
theorem tick_of_interval_none (st : TimedState) (h : st.activeInterval = none) :
    st.tick = (st, []) := by
  simp [TimedState.tick, h]

/-- Any number of ticks from an idle (no armed interval) state
changes nothing and emits nothing. -/
theorem runTicks_of_interval_none (st : TimedState) (h : st.activeInterval = none) :
    ∀ n, st.runTicks n = (st, []) := by
  intro n
  induction n with
  | zero => rfl
  | succ n ih =>
    simp only [TimedState.runTicks, tick_of_interval_none st h, ih, List.nil_append]

/-! ## Fingerprint lemmas: the JSON encoding is injective per field -/

/-- Lemma: `hexVal` inverts `hexDigitChar` below 16. -/
theorem hexVal_hexDigitChar (n : Nat) (h : n < 16) : hexVal (hexDigitChar n) = n := by
  interval_cases n <;> rfl

/-- Lemma: `unescape1` undoes a single escaped character at the head. -/
theorem unescape1_escapeChar (c : Char) (r : List Char) :
    unescape1 (escapeChar c ++ r) = c :: unescape1 r := by
  unfold escapeChar
  split_ifs with h1 h2 h3 h4 h5 h6 h7 h8
  · subst h1; rfl
  · subst h2; rfl
  · subst h3; rfl
  · subst h4; rfl
  · subst h5; rfl
  · subst h6; rfl
  · subst h7; rfl
  · have step : unescape1 (['\\', 'u', '0', '0', hexDigitChar (c.toNat / 16),
        hexDigitChar (c.toNat % 16)] ++ r) =
        Char.ofNat (16 * hexVal (hexDigitChar (c.toNat / 16)) +
          hexVal (hexDigitChar (c.toNat % 16))) :: unescape1 r := rfl
    rw [step, hexVal_hexDigitChar _ (by omega), hexVal_hexDigitChar _ (by omega),
      Nat.div_add_mod, Char.ofNat_toNat]
  · show unescape1 (c :: r) = c :: unescape1 r
    rw [unescape1.eq_def]
    simp [h2]

/-- Lemma: `unescape1` undoes `jsonEscape` with any continuation. -/
theorem unescape1_jsonEscape (s r : List Char) :
    unescape1 (jsonEscape s ++ r) = s ++ unescape1 r := by
  induction s with
  | nil => simp [jsonEscape, unescape1]
  | cons c t ih => simp [jsonEscape, List.append_assoc, unescape1_escapeChar, ih]

/-- Lemma: `jsonEscape` is injective. -/
theorem jsonEscape_inj {a b : List Char} (h : jsonEscape a = jsonEscape b) : a = b := by
  have ha := unescape1_jsonEscape a []
  have hb := unescape1_jsonEscape b []
  simp only [List.append_nil, unescape1] at ha hb
  rw [← ha, ← hb, h]

/-- A complete JSON string literal determines its body. -/
theorem jsonStringLit_inj {a b : List Char} (h : jsonStringLit a = jsonStringLit b) :
    a = b := by
  unfold jsonStringLit at h
  injection h with _ h2
  exact jsonEscape_inj (List.append_cancel_right h2)

/-- Appending one digit multiplies the value by ten. -/
theorem digitsVal_append (l : List Char) (c : Char) :
    digitsVal (l ++ [c]) = 10 * digitsVal l + hexVal c := by
  simp [digitsVal, List.foldl_append]

/-- Lemma: `digitsVal` inverts `natSerialGo` when the fuel bounds the value. -/
theorem digitsVal_natSerialGo (fuel : Nat) :
    ∀ n, n < fuel → digitsVal (natSerialGo fuel n) = n := by
  induction fuel with
  | zero => omega
  | succ fuel ih =>
    intro n hn
    unfold natSerialGo
    split
    · next h =>
      simp only [digitsVal, List.foldl_cons, List.foldl_nil, Nat.mul_zero, Nat.zero_add]
      exact hexVal_hexDigitChar n (by omega)
    · next h =>
      rw [digitsVal_append, ih (n / 10) (by omega), hexVal_hexDigitChar _ (by omega)]
      omega

/-- Lemma: `digitsVal` inverts `natSerial`. -/
theorem digitsVal_natSerial (n : Nat) : digitsVal (natSerial n) = n :=
  digitsVal_natSerialGo (n + 1) n (by omega)

/-- Decimal printing is injective. -/
theorem natSerial_inj {a b : Nat} (h : natSerial a = natSerial b) : a = b := by
  rw [← digitsVal_natSerial a, ← digitsVal_natSerial b, h]

/-- The `type` field string determines the type. -/
theorem promptTypeStr_inj {t1 t2 : PromptType} (h : t1.str = t2.str) : t1 = t2 := by
  cases t1 <;> cases t2 <;> first | rfl | exact absurd h (by decide)

/-- Keys of requests differing only in `count` determine `count`. -/
theorem createCacheKeyL_count_inj {c1 c2 : Nat} {m s e : List Char} {t : PromptType}
    (h : createCacheKeyL c1 m s e t = createCacheKeyL c2 m s e t) : c1 = c2 := by
  unfold createCacheKeyL at h
  exact natSerial_inj (List.append_cancel_right (List.append_cancel_left h))

/-- Keys of requests differing only in `model` determine `model`. -/
theorem createCacheKeyL_model_inj {c : Nat} {m1 m2 s e : List Char} {t : PromptType}
    (h : createCacheKeyL c m1 s e t = createCacheKeyL c m2 s e t) : m1 = m2 := by
  unfold createCacheKeyL at h
  exact jsonStringLit_inj (List.append_cancel_right
    (List.append_cancel_left (List.append_cancel_left (List.append_cancel_left h))))

/-- Keys of requests differing only in the system prompt determine its
trimmed form. -/
theorem createCacheKeyL_system_inj {c : Nat} {m s1 s2 e : List Char} {t : PromptType}
    (h : createCacheKeyL c m s1 e t = createCacheKeyL c m s2 e t) :
    jsTrim s1 = jsTrim s2 := by
  unfold createCacheKeyL at h
  have h1 := List.append_cancel_left h
  have h2 := List.append_cancel_left h1
  have h3 := List.append_cancel_left h2
  have h4 := List.append_cancel_left h3
  have h5 := List.append_cancel_left h4
  exact jsonStringLit_inj (List.append_cancel_right h5)

/-- Keys of requests differing only in the example prompt determine its
trimmed form. -/
theorem createCacheKeyL_example_inj {c : Nat} {m s e1 e2 : List Char} {t : PromptType}
    (h : createCacheKeyL c m s e1 t = createCacheKeyL c m s e2 t) :
    jsTrim e1 = jsTrim e2 := by
  unfold createCacheKeyL at h
  have h1 := List.append_cancel_left h
  have h2 := List.append_cancel_left h1
  have h3 := List.append_cancel_left h2
  have h4 := List.append_cancel_left h3
  have h5 := List.append_cancel_left h4
  have h6 := List.append_cancel_left h5
  have h7 := List.append_cancel_left h6
  exact jsonStringLit_inj (List.append_cancel_right h7)

/-- Keys of requests differing only in `type` determine `type`. -/
theorem createCacheKeyL_type_inj {c : Nat} {m s e : List Char} {t1 t2 : PromptType}
    (h : createCacheKeyL c m s e t1 = createCacheKeyL c m s e t2) : t1 = t2 := by
  unfold createCacheKeyL at h
  have h1 := List.append_cancel_left h
  have h2 := List.append_cancel_left h1
  have h3 := List.append_cancel_left h2
  have h4 := List.append_cancel_left h3
  have h5 := List.append_cancel_left h4
  have h6 := List.append_cancel_left h5
  have h7 := List.append_cancel_left h6
  have h8 := List.append_cancel_left h7
  have h9 := List.append_cancel_left h8
  exact promptTypeStr_inj (jsonStringLit_inj (List.append_cancel_right h9))

end Freewriting

/-! ## Claim theorems: scheduler -/

open Freewriting

/-- C1: `stop()` is idempotent, leaves the scheduler idle (`status().running
= false`, queue and cursor cleared), and no emission is observable after
`stop()` has returned: any number of subsequent timer ticks emits nothing.
Concretely, `start(["a","b"], 10s)` emits `a`; after `stop()`, no emission
of `b` ever occurs and the status reports not running. -/
theorem C1_stop_idempotent_and_post_stop_silence :
    ∀ (st : TimedState) (n : Nat),
      st.stop.stop = st.stop ∧
      st.stop.runTicks n = (st.stop, []) ∧
      st.stop.getStatus.isRunning = false ∧
      st.stop.promptQueue = [] ∧ st.stop.currentIndex = 0 ∧
      (let p := TimedState.init.execute 10 (.ok ["a", "b"])
       p.2 = [.prompt 1 2 "a" 9500] ∧
       (p.1.stop.runTicks n).2 = [] ∧
       p.1.stop.getStatus.isRunning = false) := by
  intro st n
  refine ⟨rfl, runTicks_of_interval_none _ rfl n, rfl, rfl, rfl, by decide,
    ?_, by decide⟩
  have h := runTicks_of_interval_none (TimedState.init.execute 10 (.ok ["a", "b"])).1.stop rfl n
  simp [h]

/-- C2: at most one active run.  A `start` while the command is still
generating (`inProgress`) is rejected with the "already generating"
notice; a `start` through the plugin wrapper while the scheduler is
running is rejected with the "already running" notice, leaving state
unchanged.  Concretely, calling `start(["a","b","c"], 1s)` twice in
immediate succession rejects the second call and the first sequence
completes with exactly three emissions `a`, `b`, `c` in order. -/
theorem C2_scheduler_non_overlap :
    ∀ (st st' : TimedState) (settings : Settings) (d : Nat)
      (g g' : Except String (List String)),
      st.isRunning = true →
      st'.inProgress = true →
      executeTimedPrompts st settings g = (st, [.alreadyRunning]) ∧
      st'.execute d g' = (st', [.alreadyGenerating]) ∧
      (let s : Settings :=
        { apiKey := "k", model := "m", timedCount := 3, delaySeconds := 1,
          noteCount := 3, systemPrompt := "", timedExamplePrompt := "",
          freewritingExamplePrompt := "" }
       let first := executeTimedPrompts TimedState.init s (.ok ["a", "b", "c"])
       let second := executeTimedPrompts first.1 s (.ok ["a", "b", "c"])
       let rest := first.1.runTicks 3
       second = (first.1, [.alreadyRunning]) ∧
       (first.2 ++ second.2 ++ rest.2).filter PNotice.isEmission =
         [.prompt 1 3 "a" 500, .prompt 2 3 "b" 500, .prompt 3 3 "c" 500] ∧
       rest.2 = [.prompt 2 3 "b" 500, .prompt 3 3 "c" 500, .completed] ∧
       rest.1.getStatus.isRunning = false) := by
  intro st st' settings d g g' hrun hprog
  refine ⟨?_, ?_, by decide, by decide, by decide, by decide⟩
  · simp [executeTimedPrompts, hrun]
  · simp [TimedState.execute, hprog]

/-- Witness for C2 at concrete states satisfying both hypotheses. -/
theorem C2_scheduler_non_overlap_witness :
    (⟨some 1, ["x"], 0, false⟩ : TimedState).isRunning = true ∧
    (⟨none, [], 0, true⟩ : TimedState).inProgress = true ∧
    executeTimedPrompts ⟨some 1, ["x"], 0, false⟩
      { apiKey := "k", model := "m", timedCount := 1, delaySeconds := 1,
        noteCount := 1, systemPrompt := "", timedExamplePrompt := "",
        freewritingExamplePrompt := "" } (.ok ["y"]) =
      (⟨some 1, ["x"], 0, false⟩, [.alreadyRunning]) := by
  refine ⟨by decide, by decide, ?_⟩
  exact (C2_scheduler_non_overlap ⟨some 1, ["x"], 0, false⟩ ⟨none, [], 0, true⟩
    _ 1 (.ok ["y"]) (.ok ["y"]) (by decide) (by decide)).1

/-- C10: `getRemainingPrompts()` returns exactly the suffix of the queue
strictly after the current index (excluding the currently displayed
prompt), and the empty list whenever the index is at or past the end. -/
theorem C10_getRemainingPrompts_suffix :
    ∀ (st : TimedState),
      st.getRemainingPrompts = st.promptQueue.drop (st.currentIndex + 1) ∧
      (st.currentIndex ≥ st.promptQueue.length → st.getRemainingPrompts = []) := by
  intro st
  constructor
  · unfold TimedState.getRemainingPrompts
    split
    · next h => exact (List.drop_eq_nil_of_le (by omega)).symm
    · rfl
  · intro h
    unfold TimedState.getRemainingPrompts
    simp [h]

/-- Witness for C10 at a state whose cursor is past the end. -/
theorem C10_getRemainingPrompts_suffix_witness :
    (⟨none, ["a", "b"], 5, false⟩ : TimedState).getRemainingPrompts = [] :=
  (C10_getRemainingPrompts_suffix ⟨none, ["a", "b"], 5, false⟩).2 (by decide)

/-! ## Claim theorems: fingerprint -/

/-- C7: the cache-key fingerprint is insensitive to leading/trailing
whitespace of the system and example prompts (they are trimmed before
encoding), and any single change to one of the five fields (`count`,
`modelId`, `systemPrompt`, `examplePrompt`, `purpose`) beyond such
whitespace changes the fingerprint. -/
theorem C7_fingerprint_stability :
    ∀ (c c1 c2 : Nat) (m m1 m2 s1 s2 u1 u2 e1 e2 v1 v2 : String) (t t1 t2 : PromptType),
      jsTrimS s1 = jsTrimS s2 →
      jsTrimS e1 = jsTrimS e2 →
      c1 ≠ c2 →
      m1 ≠ m2 →
      jsTrimS u1 ≠ jsTrimS u2 →
      jsTrimS v1 ≠ jsTrimS v2 →
      t1 ≠ t2 →
      createCacheKey c m s1 e1 t = createCacheKey c m s2 e2 t ∧
      createCacheKey 5 "m" " a " "b" .note = createCacheKey 5 "m" "a" "b " .note ∧
      createCacheKey c1 m s1 e1 t ≠ createCacheKey c2 m s1 e1 t ∧
      createCacheKey c m1 s1 e1 t ≠ createCacheKey c m2 s1 e1 t ∧
      createCacheKey c m u1 e1 t ≠ createCacheKey c m u2 e1 t ∧
      createCacheKey c m s1 v1 t ≠ createCacheKey c m s1 v2 t ∧
      createCacheKey c m s1 e1 t1 ≠ createCacheKey c m s1 e1 t2 := by
  intro c c1 c2 m m1 m2 s1 s2 u1 u2 e1 e2 v1 v2 t t1 t2 hs he hc hm hu hv ht
  have hs' : jsTrim s1.data = jsTrim s2.data := congrArg String.data hs
  have he' : jsTrim e1.data = jsTrim e2.data := congrArg String.data he
  refine ⟨?_, by decide, ?_, ?_, ?_, ?_, ?_⟩
  · simp only [createCacheKey, createCacheKeyL, hs', he']
  · intro hk
    exact hc (createCacheKeyL_count_inj (congrArg String.data hk))
  · intro hk
    have hd : m1.data = m2.data := createCacheKeyL_model_inj (congrArg String.data hk)
    exact hm (congrArg String.mk hd)
  · intro hk
    have hd : jsTrim u1.data = jsTrim u2.data :=
      createCacheKeyL_system_inj (congrArg String.data hk)
    exact hu (congrArg String.mk hd)
  · intro hk
    have hd : jsTrim v1.data = jsTrim v2.data :=
      createCacheKeyL_example_inj (congrArg String.data hk)
    exact hv (congrArg String.mk hd)
  · intro hk
    exact ht (createCacheKeyL_type_inj (congrArg String.data hk))

/-- Witness for C7 at concrete field values discharging every
hypothesis. -/
theorem C7_fingerprint_stability_witness :
    jsTrimS " a " = jsTrimS "a" ∧
    jsTrimS "b" = jsTrimS "b " ∧
    (5 : Nat) ≠ 6 ∧
    ("m" : String) ≠ "n" ∧
    jsTrimS "x" ≠ jsTrimS "y" ∧
    jsTrimS "p" ≠ jsTrimS "q" ∧
    PromptType.timed ≠ PromptType.note ∧
    (createCacheKey 5 "m" " a " "b" .note = createCacheKey 5 "m" "a" "b " .note ∧
     createCacheKey 5 "m" " a " "b" .timed ≠ createCacheKey 6 "m" " a " "b" .timed) := by
  refine ⟨by decide, by decide, by decide, by decide, by decide, by decide, by decide, ?_⟩
  have h := C7_fingerprint_stability 5 5 6 "m" "m" "n" " a " "a" "x" "y" "b" "b " "p" "q"
    .timed .timed .note (by decide) (by decide) (by decide) (by decide) (by decide)
    (by decide) (by decide)
  exact ⟨h.2.1, h.2.2.1⟩

/-! ## Claim theorems: prompt cache TTL -/

/-- A key just erased is absent. -/
theorem pcLookup_pcErase (c : PCache) (k : String) : pcLookup (pcErase c k) k = none := by
  induction c with
  | nil => rfl
  | cons p r ih =>
    by_cases hp : p.1 = k
    · simp only [pcErase, pcLookup] at ih
      simp [pcErase, pcLookup, List.filter_cons, hp, ih]
    · simp only [pcErase, pcLookup] at ih
      simp [pcErase, pcLookup, List.filter_cons, List.find?_cons, hp, ih]

/-- C4 counterexample: with an entry inserted at time 0 and
`ttl = 600000` ms, a get at exactly `insertedAt + ttl` returns the
cached value even though `now - insertedAt < ttl` does not hold, so
the hit condition is not `now - insertedAt < ttl`. -/
theorem C4_ttl_boundary_counterexample :
    (getCachedPrompts [("k", [⟨"p", 0⟩])] "k" 600000).1 = some [⟨"p", 0⟩] ∧
    ¬ ((600000 : Nat) - 0 < cacheExpiryMs) := by
  exact ⟨by decide, by decide⟩

/-- C4 (amended): a get returns the cached value exactly when a
nonempty entry is present and `now - insertedAt ≤ ttl`; otherwise the
entry, if present, is removed and the get is a miss.  In particular a
get at `insertedAt + ttl - 1` ms returns the value, and a get at
`insertedAt + ttl + 1` ms is a miss after which the key is absent. -/
theorem C4_ttl_expiry_amended :
    ∀ (cache cache2 : PCache) (key key2 : String) (now now2 : Nat)
      (v : GeneratedPrompt) (rest : List GeneratedPrompt),
      pcLookup cache key = some (v :: rest) →
      pcLookup cache2 key2 = none →
      (now - v.timestamp ≤ cacheExpiryMs →
        getCachedPrompts cache key now = (some (v :: rest), cache)) ∧
      (now - v.timestamp > cacheExpiryMs →
        getCachedPrompts cache key now = (none, pcErase cache key) ∧
        pcLookup (getCachedPrompts cache key now).2 key = none) ∧
      (getCachedPrompts cache key (v.timestamp + cacheExpiryMs - 1)).1 =
        some (v :: rest) ∧
      (getCachedPrompts cache key (v.timestamp + cacheExpiryMs + 1)).1 = none ∧
      pcLookup (getCachedPrompts cache key (v.timestamp + cacheExpiryMs + 1)).2 key =
        none ∧
      getCachedPrompts cache2 key2 now2 = (none, cache2) := by
  intro cache cache2 key key2 now now2 v rest h1 h2
  have hget : ∀ m : Nat, getCachedPrompts cache key m =
      if m - v.timestamp > cacheExpiryMs then (none, pcErase cache key)
      else (some (v :: rest), cache) := by
    intro m
    simp only [getCachedPrompts, h1]
  refine ⟨?_, ?_, ?_, ?_, ?_, ?_⟩
  · intro hle
    rw [hget, if_neg (by omega)]
  · intro hgt
    rw [hget, if_pos (by omega)]
    exact ⟨rfl, pcLookup_pcErase cache key⟩
  · rw [hget, if_neg (by unfold cacheExpiryMs; omega)]
  · rw [hget, if_pos (by omega)]
  · rw [hget, if_pos (by omega)]
    exact pcLookup_pcErase cache key
  · simp only [getCachedPrompts, h2]

/-- Witness for C4 (amended) at a concrete cache and both TTL
boundaries. -/
theorem C4_ttl_expiry_amended_witness :
    (getCachedPrompts [("k", [⟨"p", 5⟩])] "k" (5 + cacheExpiryMs - 1)).1 =
      some [⟨"p", 5⟩] ∧
    (getCachedPrompts [("k", [⟨"p", 5⟩])] "k" (5 + cacheExpiryMs + 1)).1 = none ∧
    pcLookup (getCachedPrompts [("k", [⟨"p", 5⟩])] "k" (5 + cacheExpiryMs + 1)).2 "k" =
      none := by
  have h := C4_ttl_expiry_amended [("k", [⟨"p", 5⟩])] [] "k" "z" 0 0 ⟨"p", 5⟩ []
    (by decide) (by decide)
  exact ⟨h.2.2.1, h.2.2.2.1, h.2.2.2.2.1⟩


/-! ## Claim theorems: empty-result rejection -/

/-- A cache lookup leaves the cache unchanged or erases the looked-up
key (stale or empty-entry eviction); it never adds an entry. -/
theorem getCachedPrompts_snd (cache : PCache) (key : String) (now : Nat) :
    (getCachedPrompts cache key now).2 = cache ∨
    (getCachedPrompts cache key now).2 = pcErase cache key := by
  rcases h : pcLookup cache key with _ | l
  · exact .inl (by simp [getCachedPrompts, h])
  · rcases l with _ | ⟨f, r⟩
    · exact .inr (by simp [getCachedPrompts, h])
    · by_cases ht : now - f.timestamp > cacheExpiryMs
      · exact .inr (by simp [getCachedPrompts, h, ht])
      · exact .inl (by simp [getCachedPrompts, h, ht])

/-- Erasing a key preserves the non-empty-entries invariant. -/
theorem pcacheNonEmpty_pcErase {c : PCache} (h : pcacheNonEmptyEntries c) (k : String) :
    pcacheNonEmptyEntries (pcErase c k) := by
  intro p hp
  exact h p (List.mem_of_mem_filter hp)

/-- Inserting a nonempty value preserves the non-empty-entries
invariant. -/
theorem pcacheNonEmpty_pcInsert {c : PCache} (h : pcacheNonEmptyEntries c)
    (k : String) {v : List GeneratedPrompt} (hv : v ≠ []) :
    pcacheNonEmptyEntries (pcInsert c k v) := by
  intro p hp
  unfold pcInsert at hp
  split_ifs at hp
  · rcases List.mem_map.1 hp with ⟨q, hq, hfq⟩
    by_cases hqk : q.1 = k
    · rw [← hfq]
      simpa [hqk] using hv
    · rw [← hfq]
      simpa [hqk] using h q hq
  · rcases List.mem_append.1 hp with hq | hq
    · exact h p hq
    · have hpv : p = (k, v) := by simpa using hq
      rw [hpv]
      exact hv

/-- A successful parse yields a nonempty prompt list. -/
theorem parse_ok_nonempty {text : String} {l : List String}
    (h : parsePromptsFromResponse text = .ok l) : l ≠ [] := by
  intro hnil
  subst hnil
  unfold parsePromptsFromResponse at h
  dsimp only at h
  split at h
  next => exact Except.noConfusion h
  next hz => exact hz (by rw [List.map_eq_nil_iff.mp (Except.ok.inj h)]; rfl)

/-- Rewrites `generatePromptsService` with its `let` bindings inlined. -/
theorem generatePromptsService_eq (st : GenState) (now count : Nat)
    (model sys ex : String) (t : PromptType) (text : String) :
    generatePromptsService st now count model sys ex t text =
      if ¬ validateApiKey st.apiKey then (.error "API key not configured", st)
      else
        match (getCachedPrompts st.cache (createCacheKey count model sys ex t) now).1 with
        | some cached =>
          (.ok (cached.map (fun p => p.text)),
           { st with cache :=
               (getCachedPrompts st.cache (createCacheKey count model sys ex t) now).2 })
        | none =>
          match parsePromptsFromResponse text with
          | .error e =>
            (.error e,
             { st with cache :=
                 (getCachedPrompts st.cache (createCacheKey count model sys ex t) now).2 })
          | .ok prompts =>
            (.ok prompts,
             { st with cache :=
                 (pcInsert
                   (getCachedPrompts st.cache (createCacheKey count model sys ex t) now).2
                   (createCacheKey count model sys ex t)
                   (prompts.map (fun x => GeneratedPrompt.mk x now))) }) := rfl

/-- Every call of the generation service preserves the
non-empty-entries invariant: cache writes are parse results, which are
nonempty, and the only other cache effect is eviction. -/
theorem genService_preserves_nonEmpty (st : GenState) (now count : Nat)
    (model sys ex : String) (t : PromptType) (text : String)
    (h : pcacheNonEmptyEntries st.cache) :
    pcacheNonEmptyEntries
      (generatePromptsService st now count model sys ex t text).2.cache := by
  have hlook : pcacheNonEmptyEntries
      (getCachedPrompts st.cache (createCacheKey count model sys ex t) now).2 := by
    rcases getCachedPrompts_snd st.cache (createCacheKey count model sys ex t) now
      with hs | hs
    · rw [hs]; exact h
    · rw [hs]; exact pcacheNonEmpty_pcErase h _
  rw [generatePromptsService_eq]
  by_cases hk : validateApiKey st.apiKey = true
  · rw [if_neg (by simp [hk])]
    rcases hc : (getCachedPrompts st.cache (createCacheKey count model sys ex t) now).1
      with _ | cached
    · simp only [hc]
      rcases hp : parsePromptsFromResponse text with e | prompts
      · simp only [hp]
        exact hlook
      · simp only [hp]
        refine pcacheNonEmpty_pcInsert hlook _ ?_
        simpa using parse_ok_nonempty hp
    · simp only [hc]
      exact hlook
  · rw [if_pos (by simpa using hk)]
    exact h

/-- C8 counterexample: a failed generate call can still change the
prompt cache.  With an expired entry under the same key, the call
fails with the empty-generation-result error yet evicts that entry,
so the cache is not left unchanged by the failed call. -/
theorem C8_failed_generate_changes_cache_counterexample :
    (generatePromptsService ⟨"k", [(createCacheKey 3 "x" "" "" .timed, [⟨"old", 0⟩])]⟩
        600001 3 "x" "" "" .timed "1.").1 =
      .error "No valid prompts found in API response" ∧
    (generatePromptsService ⟨"k", [(createCacheKey 3 "x" "" "" .timed, [⟨"old", 0⟩])]⟩
        600001 3 "x" "" "" .timed "1.").2.cache = [] ∧
    ([(createCacheKey 3 "x" "" "" .timed, [⟨"old", 0⟩])] : PCache) ≠ [] := by
  exact ⟨by decide, by decide, by decide⟩

/-- C8 (amended): when parsing yields zero usable prompts (on the
cache-miss path with a configured key), generate fails with the
empty-generation-result error and writes nothing to the prompt cache:
the cache is unchanged except possibly for the eviction of the stale
or empty entry under the looked-up key, every surviving entry was
already present, and no prompt-cache entry is ever an empty list. -/
theorem C8_empty_result_rejection_amended :
    ∀ (st st2 : GenState) (now now2 count count2 : Nat)
      (model sys ex model2 sys2 ex2 : String) (t t2 : PromptType)
      (text text2 e : String),
      validateApiKey st.apiKey = true →
      parsePromptsFromResponse text = .error e →
      (getCachedPrompts st.cache (createCacheKey count model sys ex t) now).1 = none →
      pcacheNonEmptyEntries st2.cache →
      ((generatePromptsService st now count model sys ex t text).1 = .error e ∧
       (generatePromptsService st now count model sys ex t text).2.cache =
         (getCachedPrompts st.cache (createCacheKey count model sys ex t) now).2 ∧
       ((generatePromptsService st now count model sys ex t text).2.cache = st.cache ∨
        (generatePromptsService st now count model sys ex t text).2.cache =
          pcErase st.cache (createCacheKey count model sys ex t)) ∧
       (∀ p ∈ (generatePromptsService st now count model sys ex t text).2.cache,
          p ∈ st.cache)) ∧
      pcacheNonEmptyEntries
        (generatePromptsService st2 now2 count2 model2 sys2 ex2 t2 text2).2.cache := by
  intro st st2 now now2 count count2 model sys ex model2 sys2 ex2 t t2 text text2 e
    hkey hparse hmiss hinv2
  have hres : generatePromptsService st now count model sys ex t text =
      (.error e,
       { st with cache := (getCachedPrompts st.cache
           (createCacheKey count model sys ex t) now).2 }) := by
    rw [generatePromptsService_eq, if_neg (by simp [hkey])]
    simp only [hmiss, hparse]
  have hsnd := getCachedPrompts_snd st.cache (createCacheKey count model sys ex t) now
  refine ⟨⟨by rw [hres], by rw [hres], ?_, ?_⟩,
    genService_preserves_nonEmpty st2 now2 count2 model2 sys2 ex2 t2 text2 hinv2⟩
  · rw [hres]
    exact hsnd
  · intro p hp
    rw [hres] at hp
    rcases hsnd with hs | hs
    · rw [hs] at hp
      exact hp
    · rw [hs] at hp
      exact List.mem_of_mem_filter hp

/-- Witness for C8 (amended) at a concrete failing response. -/
theorem C8_empty_result_rejection_amended_witness :
    (generatePromptsService ⟨"k", []⟩ 0 3 "x" "" "" .timed "1.").1 =
      .error "No valid prompts found in API response" ∧
    (generatePromptsService ⟨"k", []⟩ 0 3 "x" "" "" .timed "1.").2.cache = [] ∧
    pcacheNonEmptyEntries
      (generatePromptsService ⟨"", [("a", [⟨"x", 3⟩])]⟩ 0 1 "m" "s" "e"
        .note "2.").2.cache := by
  have h := C8_empty_result_rejection_amended ⟨"k", []⟩ ⟨"", [("a", [⟨"x", 3⟩])]⟩ 0 0 3 1
    "x" "" "" "m" "s" "e" .timed .note "1." "2." "No valid prompts found in API response"
    (by decide) (by decide) (by decide) (by decide)
  refine ⟨h.1.1, ?_, h.2⟩
  rcases h.1.2.2.1 with hs | hs
  · exact hs
  · exact hs

/-! ## Claim theorems: end-to-end scenario -/

/-- C3 counterexample: in the end-to-end scenario the parse result and
the emission schedule are as claimed, but `status()` never reports
`{running: false, currentIndex: 3, total: 3}`: queried right after the
last emission it reports `{running: true, currentIndex: 3, total: 3}`
(the interval is still armed), and queried after the completion signal
it reports `{running: false, currentIndex: 0, total: 0}` (the
completion tick ran `stop()`, which clears the queue and cursor). -/
theorem C3_status_after_completion_counterexample :
    parsePromptsFromResponse "1. A\n2. B\n3. C\n" = .ok ["A", "B", "C"] ∧
    (let first := TimedState.init.execute 2 (.ok ["A", "B", "C"])
     (first.1.runTicks 2).1.getStatus ≠ ⟨false, 3, 3⟩ ∧
     (first.1.runTicks 3).1.getStatus ≠ ⟨false, 3, 3⟩ ∧
     (first.1.runTicks 2).1.getStatus = ⟨true, 3, 3⟩ ∧
     (first.1.runTicks 3).1.getStatus = ⟨false, 0, 0⟩) := by
  exact ⟨by decide, by decide, by decide, by decide, by decide⟩

/-- C3 (amended): with settings `{count: 3, delay: 2, model: "x"}` and
response text `"1. A\n2. B\n3. C\n"`, generate returns `["A","B","C"]`
(ordinals stripped, blanks discarded); timed delivery emits `A`
immediately, `B` on the first tick, `C` on the second, then the
completion signal on the third; right after the last emission
`status()` reports `{running: true, currentIndex: 3, total: 3}` and
after the completion signal `{running: false, currentIndex: 0,
total: 0}`; in general `currentIndex` is 1-based and clamped to
`total` while the queue is nonempty. -/
theorem C3_end_to_end_amended :
    ∀ (st : TimedState),
      st.promptQueue ≠ [] →
      (generatePromptsService ⟨"key", []⟩ 0 3 "x" "" "" .timed "1. A\n2. B\n3. C\n").1 =
        .ok ["A", "B", "C"] ∧
      (let first := TimedState.init.execute 2 (.ok ["A", "B", "C"])
       first.2 = [.prompt 1 3 "A" 1500] ∧
       (first.1.runTicks 3).2 =
         [.prompt 2 3 "B" 1500, .prompt 3 3 "C" 1500, .completed] ∧
       (first.1.runTicks 2).1.getStatus = ⟨true, 3, 3⟩ ∧
       (first.1.runTicks 3).1.getStatus = ⟨false, 0, 0⟩) ∧
      st.getStatus.currentPrompt ≤ st.getStatus.totalPrompts ∧
      1 ≤ st.getStatus.currentPrompt := by
  intro st hq
  refine ⟨by decide, ⟨by decide, by decide, by decide, by decide⟩, ?_, ?_⟩
  · unfold TimedState.getStatus
    dsimp only
    split_ifs
    · omega
    · omega
  · unfold TimedState.getStatus
    dsimp only
    split_ifs with h0
    · exact absurd (List.length_eq_zero.mp h0) hq
    · omega

/-- Witness for C3 (amended) at a nonempty queue state. -/
theorem C3_end_to_end_amended_witness :
    (⟨none, ["A", "B", "C"], 5, false⟩ : TimedState).getStatus.currentPrompt ≤
      (⟨none, ["A", "B", "C"], 5, false⟩ : TimedState).getStatus.totalPrompts ∧
    1 ≤ (⟨none, ["A", "B", "C"], 5, false⟩ : TimedState).getStatus.currentPrompt := by
  have h := C3_end_to_end_amended ⟨none, ["A", "B", "C"], 5, false⟩ (by decide)
  exact ⟨h.2.2.1, h.2.2.2⟩

/-! ## Claim theorems: model catalog degradation -/

/-- C5: whenever the model-listing fetch fails (on the fetch path,
i.e. the TTL cache is not valid), `getAvailableModels` returns the
previously cached snapshot if one exists — regardless of its staleness
— and the hardcoded fallback list only when no cached snapshot exists.
Concretely, a cache fetched 25 hours ago is returned in place of the
fallback. -/
theorem C5_stale_cache_beats_fallback :
    ∀ (st st2 st3 : MState) (now : Nat) (err err2 err3 : String) (c : ModelCacheData),
      st.isCacheValid now = false →
      st2.isCacheValid now = false →
      st2.modelCache = some c →
      st3.isCacheValid now = false →
      st3.modelCache = none →
      (getAvailableModels st now true (.error err)).1 =
        st.getStaleCacheModels.getD getFallbackModels ∧
      (getAvailableModels st2 now true (.error err2)).1 = formatModels c.models ∧
      (getAvailableModels st3 now true (.error err3)).1 = getFallbackModels ∧
      (getAvailableModels ⟨some ⟨[⟨"m1", none, "model"⟩, ⟨"m2", none, "model"⟩], 0⟩, false⟩
          (25 * 60 * 60 * 1000) true (.error "down")).1 =
        [⟨"m1", "m1"⟩, ⟨"m2", "m2"⟩] ∧
      ([⟨"m1", "m1"⟩, ⟨"m2", "m2"⟩] : List ModelOption) ≠ getFallbackModels := by
  intro st st2 st3 now err err2 err3 c hv hv2 hm2 hv3 hm3
  refine ⟨?_, ?_, ?_, by decide, by decide⟩
  · rcases hm : st.modelCache with _ | c0 <;>
      simp [getAvailableModels, hm, hv, fetchWithDeduplication]
  · simp [getAvailableModels, hm2, hv2, fetchWithDeduplication,
      MState.getStaleCacheModels]
  · simp [getAvailableModels, hm3, hv3, fetchWithDeduplication,
      MState.getStaleCacheModels]

/-- Witness for C5 at concrete stale and empty caches. -/
theorem C5_stale_cache_beats_fallback_witness :
    (getAvailableModels ⟨some ⟨[⟨"m1", none, "model"⟩, ⟨"m2", none, "model"⟩], 0⟩, false⟩
        (25 * 60 * 60 * 1000) true (.error "down")).1 =
      [⟨"m1", "m1"⟩, ⟨"m2", "m2"⟩] ∧
    (getAvailableModels ⟨none, false⟩ (25 * 60 * 60 * 1000) true (.error "down")).1 =
      getFallbackModels := by
  have h := C5_stale_cache_beats_fallback ⟨none, false⟩
    ⟨some ⟨[⟨"m1", none, "model"⟩, ⟨"m2", none, "model"⟩], 0⟩, false⟩ ⟨none, false⟩
    (25 * 60 * 60 * 1000) "down" "down" "down"
    ⟨[⟨"m1", none, "model"⟩, ⟨"m2", none, "model"⟩], 0⟩
    (by decide) (by decide) (by decide) (by decide) (by decide)
  exact ⟨h.2.2.2.1, h.2.2.1⟩

/-! ## Claim theorems: single-flight deduplication -/

/-- Callers entering while a flight is registered all await that
flight and do not change the state. -/
theorem enterAll_of_inFlight (s : SFState) (fid : Nat) (h : s.inFlight = some fid) :
    ∀ n, s.enterAll n = (s, List.replicate n fid) := by
  intro n
  induction n with
  | zero => rfl
  | succ n ih =>
    simp [SFState.enterAll, SFState.enterCall, h, ih, List.replicate_succ]

/-- A burst of `k + 1` callers from an idle group: the first caller
registers a fresh flight and invokes the producer; everyone awaits
that same flight. -/
theorem enterAll_of_none (s : SFState) (h : s.inFlight = none) (k : Nat) :
    s.enterAll (k + 1) =
      ({ inFlight := some s.nextId, nextId := s.nextId + 1,
         producerCalls := s.producerCalls + 1 }, List.replicate (k + 1) s.nextId) := by
  have h1 : s.enterCall =
      ({ inFlight := some s.nextId, nextId := s.nextId + 1,
         producerCalls := s.producerCalls + 1 }, s.nextId) := by
    simp [SFState.enterCall, h]
  have h2 := enterAll_of_inFlight
    { inFlight := some s.nextId, nextId := s.nextId + 1,
      producerCalls := s.producerCalls + 1 } s.nextId rfl k
  simp [SFState.enterAll, h1, h2, List.replicate_succ]

/-- C6: concurrent fetches are single-flighted.  For a burst of
`n ≥ 1` callers entering while no flight is outstanding: the producer
is invoked exactly once, every caller awaits the same flight (hence
observes the same outcome, whatever it is), the registration is
removed when the flight settles regardless of outcome, and a later
non-overlapping burst of `m ≥ 1` callers invokes the producer exactly
once more. -/
theorem C6_single_flight :
    ∀ (s : SFState) (n m : Nat) (outcomes : Nat → Except String (List ModelOption)),
      s.inFlight = none → 1 ≤ n → 1 ≤ m →
      (s.enterAll n).1.producerCalls = s.producerCalls + 1 ∧
      (s.enterAll n).2 = List.replicate n s.nextId ∧
      (s.enterAll n).2.map outcomes = List.replicate n (outcomes s.nextId) ∧
      (s.enterAll n).1.settle.inFlight = none ∧
      ((s.enterAll n).1.settle.enterAll m).1.producerCalls = s.producerCalls + 2 := by
  intro s n m outcomes h hn hm
  rcases n with _ | k
  · omega
  rcases m with _ | j
  · omega
  rw [enterAll_of_none s h k]
  refine ⟨rfl, rfl, by simp, rfl, ?_⟩
  have hset : ((⟨some s.nextId, s.nextId + 1, s.producerCalls + 1⟩ : SFState),
      List.replicate (k + 1) s.nextId).1.settle =
      (⟨none, s.nextId + 1, s.producerCalls + 1⟩ : SFState) := rfl
  rw [hset, enterAll_of_none ⟨none, s.nextId + 1, s.producerCalls + 1⟩ rfl j]

/-- Witness for C6: five concurrent callers from an idle group. -/
theorem C6_single_flight_witness :
    ((⟨none, 0, 0⟩ : SFState).enterAll 5).1.producerCalls = 1 ∧
    ((⟨none, 0, 0⟩ : SFState).enterAll 5).2 = [0, 0, 0, 0, 0] ∧
    ((⟨none, 0, 0⟩ : SFState).enterAll 5).1.settle.inFlight = none := by
  have h := C6_single_flight ⟨none, 0, 0⟩ 5 1 (fun _ => .error "any")
    rfl (by omega) (by omega)
  exact ⟨h.1, by rw [h.2.1]; rfl, h.2.2.2.1⟩

/-! ## Claim theorems: credential change frame -/

/-- C9: `updateApiKey` on the generator service updates the transport
credential and clears the prompt cache, and by itself leaves the model
catalog service — its cached contents included — unchanged. -/
theorem C9_updateApiKey_frame :
    ∀ (ps : PluginServices) (newKey : String),
      (ps.updateApiKey newKey).gen.apiKey = newKey ∧
      (ps.updateApiKey newKey).gen.cache = [] ∧
      (ps.updateApiKey newKey).modelSvc = ps.modelSvc ∧
      (ps.updateApiKey newKey).modelSvc.modelCache = ps.modelSvc.modelCache := by
  intro ps newKey
  exact ⟨rfl, rfl, rfl, rfl⟩
